import Mathlib

/-!
Verification of the behavioral feature/entropy/anomaly analysis pipeline of the
diabetes-anomaly-detection repository.

The development shallowly embeds the Python sources:
  * `src/log_analysis/entropy/calculation.py`   (namespace `Calculation`)
  * `src/log_analysis/anomalies/detection.py`   (namespace `Detection`)
  * `src/Feature Extraction/AnomalyDet.py`      (namespace `AnomalyDet`)
  * `src/Feature Extraction/EntropyCalc.py`     (shares `calculate_entropy`,
    whose body is textually identical to the one in calculation.py)
  * `src/log_analysis/features/helpers.py`      (namespace `Helpers`)

Machine floats are modelled as real numbers, Python lists as `List`,
Python dicts (JSON objects) as association lists with first-match lookup,
and raised exceptions as `Except` errors.  ISO-8601 timestamps are modelled
as a record carrying the calendar date (as a day number: distinct ISO date
strings compare lexicographically exactly as day numbers compare) and the
absolute time in seconds.
-/

set_option maxRecDepth 4000

namespace DiabetesPipeline

/-- A parsed ISO-8601 timestamp.  `datetime.fromisoformat(t).date()` is the
`date` field; subtraction of two timestamps (`total_seconds()`) is the
difference of the `seconds` fields. -/
structure Timestamp where
  date : Nat
  seconds : ℚ
deriving DecidableEq

/-- One user interaction record of a `<user_id>_logs.json` file.  Only the
fields read by the analysis code are modelled. -/
structure LogEntry where
  timestamp : Timestamp
  log_type : String
  message : String
deriving DecidableEq

instance : Inhabited LogEntry := ⟨⟨⟨0, 0⟩, "", ""⟩⟩

/-- Python dict lookup (`d[k]` / `k in d`) on a JSON object modelled as an
association list; the first binding for a key wins. -/
def dictGet {κ β : Type} [DecidableEq κ] (k : κ) : List (κ × β) → Option β
  | [] => none
  | (a, b) :: t => if a = k then some b else dictGet k t

/-- Errors raised by the analysis functions (`FileNotFoundError`, `KeyError`,
`ValueError`). -/
inductive PipelineError where
  | fileNotFound (msg : String)
  | keyError (msg : String)
  | valueError (msg : String)
deriving DecidableEq

/-- Result dictionary built by `analyze_user_entropy`. -/
structure EntropyResult where
  user_id : String
  feature_type : String
  entropies : List ℝ
  total_days : Nat
  mean_entropy : ℝ
  max_entropy : ℝ
  min_entropy : ℝ

/-- Result dictionary built by `analyze_user_entropy_anomalies`; an anomaly
`(index, value)` dict is modelled as a pair. -/
structure AnomalyReport where
  user_id : String
  feature_type : String
  anomalies : List (Nat × ℝ)
  total_points : Nat
  anomaly_count : Nat

/-- `float(np.mean(l))` on a nonempty list. -/
noncomputable def npMean (data : List ℝ) : ℝ := data.sum / data.length

/-- `float(np.std(l))`: the population standard deviation. -/
noncomputable def npStd (data : List ℝ) : ℝ :=
  Real.sqrt ((data.map (fun x => (x - npMean data) ^ 2)).sum / data.length)

/-- `float(np.max(l))` on a nonempty list (0 as an unused default). -/
noncomputable def npMax : List ℝ → ℝ
  | [] => 0
  | h :: t => t.foldl max h

/-- `float(np.min(l))` on a nonempty list (0 as an unused default). -/
noncomputable def npMin : List ℝ → ℝ
  | [] => 0
  | h :: t => t.foldl min h

namespace Calculation

/-- `calculate_entropy` of src/log_analysis/entropy/calculation.py (the body is
identical in src/Feature Extraction/EntropyCalc.py).  `Counter(values)`
iterates over the distinct elements (`values.dedup`) giving each one's
multiplicity (`values.count c`), and the loop subtracts
`probability * log2 probability` from the accumulator for each of them. -/
noncomputable def calculate_entropy {α : Type} [DecidableEq α] (values : List α) : ℝ :=
  if values = [] then 0
  else
    (values.dedup.map (fun c =>
      ((values.count c : ℝ) / (values.length : ℝ)) *
        Real.logb 2 ((values.count c : ℝ) / (values.length : ℝ)))).foldl
      (fun entropy p => entropy - p) 0

/-- `group_data_by_day` of calculation.py, in the branch used by
`calculate_window_entropy` (`logs is None`): zip the feature values with the
timestamps and bucket them by the timestamp's calendar date.  The resulting
dict is modelled as an association list; its keys are the distinct dates of
the zipped pairs (Python keeps them in first-insertion order, `List.dedup`
keeps another order, but the caller sorts the keys before use) and each key
maps to the bucketed values in their original order. -/
def group_data_by_day {α : Type} [DecidableEq α] (data : List α)
    (timestamps : List Timestamp) : List (Nat × List α) :=
  let pairs := data.zip timestamps
  ((pairs.map (fun p => p.2.date)).dedup).map
    (fun d => (d, (pairs.filter (fun p => p.2.date = d)).map Prod.fst))

/-- `sorted(grouped_data.keys())` of `calculate_window_entropy`. -/
def sorted_dates {α : Type} (grouped : List (Nat × List α)) : List Nat :=
  (grouped.map Prod.fst).insertionSort (· ≤ ·)

/-- The `window_values` accumulated for day index `i` inside the loop of
`calculate_window_entropy`: the concatenation of the day buckets of the date
slice `dates[i - window_size + 1 : i + 1]` (the loop only runs it for
`i ≥ window_size - 1`, where that slice has `window_size` entries). -/
def window_values {α : Type} [DecidableEq α] (grouped : List (Nat × List α))
    (dates : List Nat) (window_size i : Nat) : List α :=
  ((dates.drop (i - (window_size - 1))).take window_size).flatMap
    (fun d => (dictGet d grouped).getD [])

/-- `calculate_window_entropy` of calculation.py: one entropy value per day
index `i` in `range(window_size - 1, len(dates))`, computed over all values
of the trailing `window_size` calendar days. -/
noncomputable def calculate_window_entropy {α : Type} [DecidableEq α] (data : List α)
    (timestamps : List Timestamp) (window_size : Nat) : List ℝ :=
  if data = [] then []
  else
    (List.range' (window_size - 1)
      ((sorted_dates (group_data_by_day data timestamps)).length - (window_size - 1))).map
      (fun i => calculate_entropy
        (window_values (group_data_by_day data timestamps)
          (sorted_dates (group_data_by_day data timestamps)) window_size i))

/-- The feature-stream value stored for one user and one feature type in
`extracted_features.json`: either a flat list of values or a JSON object
keyed by date (a scalar entry of such an object is modelled as a
one-element list; the code appends it just as it extends with a list). -/
inductive FeatureValues (α : Type) where
  | flat (values : List α)
  | byDate (values : List (Nat × List α))
deriving DecidableEq

/-- The flattening step of `analyze_user_entropy`: a dict of per-date values
is flattened into a single list following the sorted date keys; a flat list
is used as is. -/
def flatten_values {α : Type} [DecidableEq α] : FeatureValues α → List α
  | .flat l => l
  | .byDate m =>
    ((m.map Prod.fst).insertionSort (· ≤ ·)).flatMap (fun d => (dictGet d m).getD [])

/-- `analyze_user_entropy` of calculation.py.  The features file is the
`all_features` parameter; the recursive search of `synthetic_logs` for
`<user_id>_logs.json` is the `log_lookup` parameter (`none` models a missing
log file). -/
noncomputable def analyze_user_entropy {α : Type} [DecidableEq α]
    (user_id feature_type : String)
    (all_features : List (String × List (String × FeatureValues α)))
    (log_lookup : String → Option (List LogEntry)) :
    Except PipelineError EntropyResult :=
  match dictGet user_id all_features with
  | none => .error (.keyError ("User " ++ user_id ++ " not found in features file"))
  | some user_data =>
    match dictGet feature_type user_data with
    | none => .error (.valueError ("Unsupported feature type: " ++ feature_type))
    | some fv =>
      let values := flatten_values fv
      if values = [] then
        .ok ⟨user_id, feature_type, [], 0, 0, 0, 0⟩
      else
        match log_lookup user_id with
        | none =>
          .error (.fileNotFound ("Log file not found for user " ++ user_id))
        | some logs =>
          let timestamps := logs.map (fun log => log.timestamp)
          let entropies := calculate_window_entropy values timestamps 10
          .ok ⟨user_id, feature_type, entropies, entropies.length,
            if entropies = [] then 0 else npMean entropies,
            if entropies = [] then 0 else npMax entropies,
            if entropies = [] then 0 else npMin entropies⟩

end Calculation

namespace Detection

/-- `detect_anomalies_moving_average` of
src/log_analysis/anomalies/detection.py.  The trailing window of index `i`
is the slice `data[i - window_size : i]`; windows with zero standard
deviation are skipped with `continue`. -/
noncomputable def detect_anomalies_moving_average (data : List ℝ)
    (window_size : Nat) (threshold : ℝ) : List (Nat × ℝ) :=
  if data.length < window_size then []
  else
    (List.range' window_size (data.length - window_size)).filterMap (fun i =>
      let window := (data.drop (i - window_size)).take window_size
      if npStd window = 0 then none
      else if threshold * npStd window < |data.getD i 0 - npMean window| then
        some (i, data.getD i 0)
      else none)

/-- `analyze_user_entropy_anomalies` of detection.py.  The parsed
`entropy_results.json` content (feature type, then user id, then the stored
per-user entropy result) is the `all_results` parameter. -/
noncomputable def analyze_user_entropy_anomalies (user_id feature_type : String)
    (all_results : List (String × List (String × EntropyResult))) :
    Except PipelineError AnomalyReport :=
  match dictGet feature_type all_results with
  | none =>
    .error (.keyError ("Feature type " ++ feature_type ++ " not found in entropy results"))
  | some ft_results =>
    match dictGet user_id ft_results with
    | none =>
      .error (.keyError
        ("User " ++ user_id ++ " not found in entropy results for " ++ feature_type))
    | some user_data =>
      let values := user_data.entropies
      if values = [] then .ok ⟨user_id, feature_type, [], 0, 0⟩
      else
        let anomalies := detect_anomalies_moving_average values 5 2.0
        .ok ⟨user_id, feature_type, anomalies, values.length, anomalies.length⟩

end Detection

namespace AnomalyDet

/-- `detect_anomalies` of src/Feature Extraction/AnomalyDet.py: the global
z-score detector over the whole series. -/
noncomputable def detect_anomalies (data : List ℝ) (z_threshold : ℝ) : List (Nat × ℝ) :=
  if data.length < 2 then []
  else
    if npStd data = 0 then []
    else data.enum.filter (fun p => z_threshold < |(p.2 - npMean data) / npStd data|)

/-- `analyze_user_entropy_anomalies` of AnomalyDet.py: identical to the one in
detection.py except that it runs the global z-score detector with its default
threshold 2.0. -/
noncomputable def analyze_user_entropy_anomalies (user_id feature_type : String)
    (all_results : List (String × List (String × EntropyResult))) :
    Except PipelineError AnomalyReport :=
  match dictGet feature_type all_results with
  | none =>
    .error (.keyError ("Feature type " ++ feature_type ++ " not found in entropy results"))
  | some ft_results =>
    match dictGet user_id ft_results with
    | none =>
      .error (.keyError
        ("User " ++ user_id ++ " not found in entropy results for " ++ feature_type))
    | some user_data =>
      let values := user_data.entropies
      if values = [] then .ok ⟨user_id, feature_type, [], 0, 0⟩
      else
        let anomalies := detect_anomalies values 2.0
        .ok ⟨user_id, feature_type, anomalies, values.length, anomalies.length⟩

end AnomalyDet

namespace Helpers

/-- `calculate_text_similarity` of src/log_analysis/features/helpers.py.
The sklearn TF-IDF vectorizer and the cosine kernel are external
collaborators, abstracted as parameters: `fit_transform` either yields a
matrix of some type `M` or fails (`none` models the exception caught by the
`except` branch), and `cosine_similarity m i j` is the cosine similarity of
rows `i` and `j` of the matrix.  On failure the code returns
`[0] * (len(messages) - 1)`. -/
def calculate_text_similarity {M : Type} (fit_transform : List String → Option M)
    (cosine_similarity : M → Nat → Nat → ℝ) (logs : List LogEntry) : List ℝ :=
  if logs.length < 2 then []
  else
    let messages := logs.map (fun log => log.message)
    match fit_transform messages with
    | some tfidf_matrix =>
      (List.range (messages.length - 1)).map
        (fun i => cosine_similarity tfidf_matrix i (i + 1))
    | none => List.replicate (messages.length - 1) 0

/-- `calculate_response_latency` of helpers.py: minutes elapsed between each
consecutive pair of log timestamps. -/
def calculate_response_latency (logs : List LogEntry) : List ℚ :=
  if logs.length < 2 then []
  else
    (List.range (logs.length - 1)).map (fun i =>
      ((logs.getD (i + 1) default).timestamp.seconds
        - (logs.getD i default).timestamp.seconds) / 60)

end Helpers

/-! ## General lemmas about the embedded functions -/

theorem foldl_sub_eq (l : List ℝ) (a : ℝ) :
    l.foldl (fun entropy p => entropy - p) a = a - l.sum := by
  induction l generalizing a with
  | nil => simp
  | cons h t ih => simp [ih, sub_sub]

/-- The accumulating loop of `calculate_entropy` computes the negated sum of
`p(c) * log2 (p(c))` over the distinct observed categories. -/
theorem calculate_entropy_eq {α : Type} [DecidableEq α] (values : List α) :
    Calculation.calculate_entropy values
      = -((values.dedup.map (fun c =>
          ((values.count c : ℝ) / (values.length : ℝ)) *
            Real.logb 2 ((values.count c : ℝ) / (values.length : ℝ)))).sum) := by
  unfold Calculation.calculate_entropy
  by_cases h : values = []
  · subst h; simp
  · rw [if_neg h, foldl_sub_eq]; ring

theorem count_div_length_nonneg {α : Type} [DecidableEq α] (values : List α) (c : α) :
    (0 : ℝ) ≤ (values.count c : ℝ) / (values.length : ℝ) :=
  div_nonneg (Nat.cast_nonneg _) (Nat.cast_nonneg _)

theorem count_div_length_le_one {α : Type} [DecidableEq α] (values : List α) (c : α)
    (h : values ≠ []) : (values.count c : ℝ) / (values.length : ℝ) ≤ 1 := by
  have hlen : (0 : ℝ) < (values.length : ℝ) := by
    exact_mod_cast List.length_pos.2 h
  rw [div_le_one hlen]
  exact_mod_cast List.count_le_length c values

/-- Shannon entropy as computed by `calculate_entropy` is non-negative. -/
theorem calculate_entropy_nonneg {α : Type} [DecidableEq α] (values : List α) :
    0 ≤ Calculation.calculate_entropy values := by
  rw [calculate_entropy_eq, neg_nonneg]
  have h : ∀ c ∈ values.dedup,
      ((values.count c : ℝ) / (values.length : ℝ)) *
        Real.logb 2 ((values.count c : ℝ) / (values.length : ℝ))
      ≤ (fun _ => (0 : ℝ)) c := by
    intro c hc
    have hmem : c ∈ values := List.mem_dedup.1 hc
    have hne : values ≠ [] := List.ne_nil_of_mem hmem
    have h1 : (0 : ℝ) ≤ (values.count c : ℝ) / (values.length : ℝ) :=
      count_div_length_nonneg values c
    have h2 : (values.count c : ℝ) / (values.length : ℝ) ≤ 1 :=
      count_div_length_le_one values c hne
    have h3 : Real.logb 2 ((values.count c : ℝ) / (values.length : ℝ)) ≤ 0 :=
      Real.logb_nonpos one_lt_two h1 h2
    nlinarith [h1, h3]
  calc (values.dedup.map _).sum ≤ (values.dedup.map (fun _ => (0 : ℝ))).sum :=
        List.sum_le_sum h
    _ = 0 := by simp

/-- The probabilities `count c / total` over the distinct categories sum
to 1 on a nonempty list. -/
theorem sum_count_div_length {α : Type} [DecidableEq α] (values : List α)
    (h : values ≠ []) :
    (values.dedup.map (fun c => (values.count c : ℝ) / (values.length : ℝ))).sum = 1 := by
  have hlen : (0 : ℝ) < (values.length : ℝ) := by
    exact_mod_cast List.length_pos.2 h
  have hcast : (values.dedup.map (fun c => ((values.count c : ℕ) : ℝ))).sum
      = ((values.length : ℕ) : ℝ) := by
    rw [show (fun c => ((values.count c : ℕ) : ℝ))
        = ((fun n : ℕ => (n : ℝ)) ∘ (fun c => values.count c)) from rfl]
    rw [← List.map_map, ← Nat.cast_list_sum, List.sum_map_count_dedup_eq_length]
  have : (values.dedup.map (fun c => (values.count c : ℝ) / (values.length : ℝ))).sum
      = (values.dedup.map (fun c => ((values.count c : ℕ) : ℝ))).sum / (values.length : ℝ) := by
    induction values.dedup with
    | nil => simp
    | cons d t ih => simp [ih, add_div]
  rw [this, hcast, div_self (ne_of_gt hlen)]

/-- Shannon entropy as computed by `calculate_entropy` is at most the base-2
logarithm of the number of values (each probability is at least
`1 / length`, so each `log2 (1 / p)` is at most `log2 length`). -/
theorem calculate_entropy_le_logb_length {α : Type} [DecidableEq α] (values : List α) :
    Calculation.calculate_entropy values ≤ Real.logb 2 (values.length : ℝ) := by
  by_cases h : values = []
  · subst h
    simp [Calculation.calculate_entropy, Real.logb_zero]
  · rw [calculate_entropy_eq]
    have hlen : (0 : ℝ) < (values.length : ℝ) := by
      exact_mod_cast List.length_pos.2 h
    have hbound : ∀ c ∈ values.dedup,
        (fun c => -(((values.count c : ℝ) / (values.length : ℝ)) *
          Real.logb 2 (values.length : ℝ))) c
        ≤ (fun c => ((values.count c : ℝ) / (values.length : ℝ)) *
          Real.logb 2 ((values.count c : ℝ) / (values.length : ℝ))) c := by
      intro c hc
      have hmem : c ∈ values := List.mem_dedup.1 hc
      have hcount : (1 : ℝ) ≤ (values.count c : ℝ) := by
        exact_mod_cast List.count_pos_iff.2 hmem
      have hp : (0 : ℝ) < (values.count c : ℝ) / (values.length : ℝ) :=
        div_pos (lt_of_lt_of_le zero_lt_one hcount) hlen
      have hkey : 0 ≤ Real.logb 2 ((values.count c : ℝ) / (values.length : ℝ))
          + Real.logb 2 (values.length : ℝ) := by
        rw [← Real.logb_mul (ne_of_gt hp) (ne_of_gt hlen)]
        rw [div_mul_cancel₀ _ (ne_of_gt hlen)]
        exact Real.logb_nonneg one_lt_two hcount
      have := mul_nonneg (le_of_lt hp) hkey
      nlinarith [this]
    have hs := List.sum_le_sum hbound
    have hneg : (values.dedup.map (fun c =>
        -(((values.count c : ℝ) / (values.length : ℝ)) *
          Real.logb 2 (values.length : ℝ)))).sum
        = -(Real.logb 2 (values.length : ℝ)) := by
      have : (values.dedup.map (fun c =>
          -(((values.count c : ℝ) / (values.length : ℝ)) *
            Real.logb 2 (values.length : ℝ)))).sum
          = -((values.dedup.map (fun c =>
              (values.count c : ℝ) / (values.length : ℝ))).sum
            * Real.logb 2 (values.length : ℝ)) := by
        induction values.dedup with
        | nil => simp
        | cons d t ih => simp [ih]; ring
      rw [this, sum_count_div_length values h, one_mul]
    rw [hneg] at hs
    linarith

/-- A multiset with at most one distinct label has entropy exactly 0. -/
theorem calculate_entropy_single {α : Type} [DecidableEq α] (values : List α)
    (h : values.dedup.length ≤ 1) : Calculation.calculate_entropy values = 0 := by
  by_cases hnil : values = []
  · subst hnil
    simp [Calculation.calculate_entropy]
  · have hne : values.dedup ≠ [] := by
      simpa [List.dedup_eq_nil] using hnil
    have h1 : values.dedup.length = 1 := by
      have := List.length_pos.2 hne
      omega
    obtain ⟨c, hc⟩ := List.length_eq_one.1 h1
    have hall : ∀ b ∈ values, c = b := by
      intro b hb
      have : b ∈ values.dedup := List.mem_dedup.2 hb
      rw [hc] at this
      simpa using (List.mem_singleton.1 this).symm
    have hcount : values.count c = values.length := List.count_eq_length.2 hall
    have hlen : (0 : ℝ) < (values.length : ℝ) := by
      exact_mod_cast List.length_pos.2 hnil
    rw [calculate_entropy_eq, hc]
    simp [hcount, div_self (ne_of_gt hlen)]

/-- On a nonempty list of pairwise-distinct values, the entropy is exactly
the base-2 logarithm of the number of values. -/
theorem calculate_entropy_nodup {α : Type} [DecidableEq α] (values : List α)
    (hnd : values.Nodup) (hne : values ≠ []) :
    Calculation.calculate_entropy values = Real.logb 2 (values.length : ℝ) := by
  have hlen : (0 : ℝ) < (values.length : ℝ) := by
    exact_mod_cast List.length_pos.2 hne
  rw [calculate_entropy_eq, List.dedup_eq_self.2 hnd]
  have hmap : values.map (fun c =>
      ((values.count c : ℝ) / (values.length : ℝ)) *
        Real.logb 2 ((values.count c : ℝ) / (values.length : ℝ)))
      = values.map (fun _ =>
        ((values.length : ℝ))⁻¹ * Real.logb 2 ((values.length : ℝ))⁻¹) := by
    apply List.map_congr_left
    intro c hc
    rw [List.count_eq_one_of_mem hnd hc]
    norm_num
  rw [hmap, List.map_const', List.sum_replicate, nsmul_eq_mul, Real.logb_inv]
  field_simp

/-- The series emitted by `calculate_window_entropy` has one entry per day
index from `window_size - 1` up to the number of distinct dates of the
zipped (value, timestamp) pairs. -/
theorem length_calculate_window_entropy {α : Type} [DecidableEq α] (data : List α)
    (ts : List Timestamp) (w : Nat) :
    (Calculation.calculate_window_entropy data ts w).length
      = ((data.zip ts).map (fun p => p.2.date)).dedup.length - (w - 1) := by
  unfold Calculation.calculate_window_entropy
  by_cases h : data = []
  · subst h; simp
  · rw [if_neg h]
    simp [Calculation.sorted_dates, Calculation.group_data_by_day,
      List.length_insertionSort]

/-! ## Claim theorems -/

/-- Claim C1: `calculate_entropy` returns exactly 0.0 on every multiset of
labels that is empty or has a single distinct label, and in general returns
the negated sum of `p(c) * log2 (p(c))` over the observed categories `c`,
with `p(c) = count(c) / total`. -/
theorem C1_calculate_entropy_formula {α : Type} [DecidableEq α] (values : List α) :
    (values.dedup.length ≤ 1 → Calculation.calculate_entropy values = 0) ∧
    Calculation.calculate_entropy values
      = -((values.dedup.map (fun c =>
          ((values.count c : ℝ) / (values.length : ℝ)) *
            Real.logb 2 ((values.count c : ℝ) / (values.length : ℝ)))).sum) :=
  ⟨calculate_entropy_single values, calculate_entropy_eq values⟩

/-- Witness for C1 at the concrete single-category multiset `[3, 3, 3]`. -/
theorem C1_calculate_entropy_formula_witness :
    ([3, 3, 3] : List ℕ).dedup.length ≤ 1 ∧
    Calculation.calculate_entropy ([3, 3, 3] : List ℕ) = 0 :=
  ⟨by decide, (C1_calculate_entropy_formula ([3, 3, 3] : List ℕ)).1 (by decide)⟩

/-- Claim C2 as stated is false: a window spans 10 calendar *days*, and a day
may hold several feature values, so a window can contain more than
`window_size` distinct values and its entropy can exceed `log2 window_size`.
Here 11 distinct values spread over 10 distinct dates give the entropy
series `[log2 11]`, whose entry exceeds `log2 10`. -/
theorem C2_counterexample :
    ¬ (∀ x ∈ Calculation.calculate_window_entropy
        ([0, 1, 2, 3, 4, 5, 6, 7, 8, 9, 10] : List ℕ)
        ([⟨0, 0⟩, ⟨0, 0⟩, ⟨1, 0⟩, ⟨2, 0⟩, ⟨3, 0⟩, ⟨4, 0⟩, ⟨5, 0⟩, ⟨6, 0⟩,
          ⟨7, 0⟩, ⟨8, 0⟩, ⟨9, 0⟩] : List Timestamp) 10,
        x ≤ Real.logb 2 10) := by
  intro hall
  have hlen : (Calculation.sorted_dates (Calculation.group_data_by_day
      ([0, 1, 2, 3, 4, 5, 6, 7, 8, 9, 10] : List ℕ)
      ([⟨0, 0⟩, ⟨0, 0⟩, ⟨1, 0⟩, ⟨2, 0⟩, ⟨3, 0⟩, ⟨4, 0⟩, ⟨5, 0⟩, ⟨6, 0⟩,
        ⟨7, 0⟩, ⟨8, 0⟩, ⟨9, 0⟩] : List Timestamp))).length = 10 := by decide
  have hwv : Calculation.window_values
      (Calculation.group_data_by_day
        ([0, 1, 2, 3, 4, 5, 6, 7, 8, 9, 10] : List ℕ)
        ([⟨0, 0⟩, ⟨0, 0⟩, ⟨1, 0⟩, ⟨2, 0⟩, ⟨3, 0⟩, ⟨4, 0⟩, ⟨5, 0⟩, ⟨6, 0⟩,
          ⟨7, 0⟩, ⟨8, 0⟩, ⟨9, 0⟩] : List Timestamp))
      (Calculation.sorted_dates (Calculation.group_data_by_day
        ([0, 1, 2, 3, 4, 5, 6, 7, 8, 9, 10] : List ℕ)
        ([⟨0, 0⟩, ⟨0, 0⟩, ⟨1, 0⟩, ⟨2, 0⟩, ⟨3, 0⟩, ⟨4, 0⟩, ⟨5, 0⟩, ⟨6, 0⟩,
          ⟨7, 0⟩, ⟨8, 0⟩, ⟨9, 0⟩] : List Timestamp)))
      10 9 = [0, 1, 2, 3, 4, 5, 6, 7, 8, 9, 10] := by decide
  have h1 : Calculation.calculate_window_entropy
      ([0, 1, 2, 3, 4, 5, 6, 7, 8, 9, 10] : List ℕ)
      ([⟨0, 0⟩, ⟨0, 0⟩, ⟨1, 0⟩, ⟨2, 0⟩, ⟨3, 0⟩, ⟨4, 0⟩, ⟨5, 0⟩, ⟨6, 0⟩,
        ⟨7, 0⟩, ⟨8, 0⟩, ⟨9, 0⟩] : List Timestamp) 10
      = [Real.logb 2 11] := by
    unfold Calculation.calculate_window_entropy
    rw [if_neg (by decide), hlen]
    norm_num [show List.range' 9 1 = [9] from by decide, hwv]
    rw [calculate_entropy_nodup _ (by decide) (by decide)]
    norm_num
  have hmem : Real.logb 2 11 ∈ Calculation.calculate_window_entropy
      ([0, 1, 2, 3, 4, 5, 6, 7, 8, 9, 10] : List ℕ)
      ([⟨0, 0⟩, ⟨0, 0⟩, ⟨1, 0⟩, ⟨2, 0⟩, ⟨3, 0⟩, ⟨4, 0⟩, ⟨5, 0⟩, ⟨6, 0⟩,
        ⟨7, 0⟩, ⟨8, 0⟩, ⟨9, 0⟩] : List Timestamp) 10 := by
    rw [h1]; simp
  have hlt : Real.logb 2 10 < Real.logb 2 11 :=
    Real.logb_lt_logb one_lt_two (by norm_num) (by norm_num)
  have := hall _ hmem
  linarith

/-- Claim C2 (amended): the entropy series of `calculate_window_entropy`
(window 10 over sorted distinct calendar dates) has length
`max (0, distinct_dates - 10 + 1)` where `distinct_dates` counts the
distinct dates of the zipped (value, timestamp) pairs, and every emitted
value is non-negative and at most the base-2 logarithm of the number of
feature values falling in its 10-day window (not of the window size itself:
a day can carry several values). -/
theorem C2_window_entropy_length_and_bounds {α : Type} [DecidableEq α]
    (data : List α) (ts : List Timestamp) :
    (Calculation.calculate_window_entropy data ts 10).length
      = ((data.zip ts).map (fun p => p.2.date)).dedup.length - 9 ∧
    ∀ i, i < (Calculation.calculate_window_entropy data ts 10).length →
      0 ≤ (Calculation.calculate_window_entropy data ts 10).getD i 0 ∧
      (Calculation.calculate_window_entropy data ts 10).getD i 0
        ≤ Real.logb 2 ((Calculation.window_values
            (Calculation.group_data_by_day data ts)
            (Calculation.sorted_dates (Calculation.group_data_by_day data ts))
            10 (9 + i)).length : ℝ) := by
  constructor
  · simpa using length_calculate_window_entropy data ts 10
  · intro i hi
    by_cases h : data = []
    · subst h
      simp [Calculation.calculate_window_entropy] at hi
    · unfold Calculation.calculate_window_entropy at hi ⊢
      rw [if_neg h] at hi ⊢
      rw [List.length_map, List.length_range'] at hi
      have hget : ((List.range' 9
          ((Calculation.sorted_dates (Calculation.group_data_by_day data ts)).length - 9)).map
          (fun j => Calculation.calculate_entropy
            (Calculation.window_values (Calculation.group_data_by_day data ts)
              (Calculation.sorted_dates (Calculation.group_data_by_day data ts)) 10 j))).getD i 0
          = Calculation.calculate_entropy
            (Calculation.window_values (Calculation.group_data_by_day data ts)
              (Calculation.sorted_dates (Calculation.group_data_by_day data ts)) 10 (9 + i)) := by
        rw [List.getD_eq_getElem?_getD]
        rw [List.getElem?_eq_getElem (by simpa using hi)]
        simp
      simp only [show (10 : Nat) - 1 = 9 from rfl] at hget ⊢
      rw [hget]
      exact ⟨calculate_entropy_nonneg _, calculate_entropy_le_logb_length _⟩

/-- Witness for the amended C2 on the counterexample input: the series has
the predicted length 1 and its entry obeys the amended bounds. -/
theorem C2_window_entropy_length_and_bounds_witness :
    (Calculation.calculate_window_entropy
      ([0, 1, 2, 3, 4, 5, 6, 7, 8, 9, 10] : List ℕ)
      ([⟨0, 0⟩, ⟨0, 0⟩, ⟨1, 0⟩, ⟨2, 0⟩, ⟨3, 0⟩, ⟨4, 0⟩, ⟨5, 0⟩, ⟨6, 0⟩,
        ⟨7, 0⟩, ⟨8, 0⟩, ⟨9, 0⟩] : List Timestamp) 10).length = 1 ∧
    (0 ≤ (Calculation.calculate_window_entropy
      ([0, 1, 2, 3, 4, 5, 6, 7, 8, 9, 10] : List ℕ)
      ([⟨0, 0⟩, ⟨0, 0⟩, ⟨1, 0⟩, ⟨2, 0⟩, ⟨3, 0⟩, ⟨4, 0⟩, ⟨5, 0⟩, ⟨6, 0⟩,
        ⟨7, 0⟩, ⟨8, 0⟩, ⟨9, 0⟩] : List Timestamp) 10).getD 0 0 ∧
    (Calculation.calculate_window_entropy
      ([0, 1, 2, 3, 4, 5, 6, 7, 8, 9, 10] : List ℕ)
      ([⟨0, 0⟩, ⟨0, 0⟩, ⟨1, 0⟩, ⟨2, 0⟩, ⟨3, 0⟩, ⟨4, 0⟩, ⟨5, 0⟩, ⟨6, 0⟩,
        ⟨7, 0⟩, ⟨8, 0⟩, ⟨9, 0⟩] : List Timestamp) 10).getD 0 0
      ≤ Real.logb 2 ((Calculation.window_values
          (Calculation.group_data_by_day
            ([0, 1, 2, 3, 4, 5, 6, 7, 8, 9, 10] : List ℕ)
            ([⟨0, 0⟩, ⟨0, 0⟩, ⟨1, 0⟩, ⟨2, 0⟩, ⟨3, 0⟩, ⟨4, 0⟩, ⟨5, 0⟩, ⟨6, 0⟩,
              ⟨7, 0⟩, ⟨8, 0⟩, ⟨9, 0⟩] : List Timestamp))
          (Calculation.sorted_dates (Calculation.group_data_by_day
            ([0, 1, 2, 3, 4, 5, 6, 7, 8, 9, 10] : List ℕ)
            ([⟨0, 0⟩, ⟨0, 0⟩, ⟨1, 0⟩, ⟨2, 0⟩, ⟨3, 0⟩, ⟨4, 0⟩, ⟨5, 0⟩, ⟨6, 0⟩,
              ⟨7, 0⟩, ⟨8, 0⟩, ⟨9, 0⟩] : List Timestamp)))
          10 (9 + 0)).length : ℝ)) := by
  have h := C2_window_entropy_length_and_bounds
    ([0, 1, 2, 3, 4, 5, 6, 7, 8, 9, 10] : List ℕ)
    ([⟨0, 0⟩, ⟨0, 0⟩, ⟨1, 0⟩, ⟨2, 0⟩, ⟨3, 0⟩, ⟨4, 0⟩, ⟨5, 0⟩, ⟨6, 0⟩,
      ⟨7, 0⟩, ⟨8, 0⟩, ⟨9, 0⟩] : List Timestamp)
  refine ⟨?_, h.2 0 ?_⟩
  · rw [h.1]; decide
  · rw [h.1]; decide

/-- Membership characterization of the global z-score detector on a series
with at least 2 points and nonzero standard deviation. -/
theorem mem_detect_anomalies {data : List ℝ} {z : ℝ} (h2 : 2 ≤ data.length)
    (hstd : npStd data ≠ 0) (i : Nat) (x : ℝ) :
    ((i, x) ∈ AnomalyDet.detect_anomalies data z) ↔
      (i < data.length ∧ x = data.getD i 0 ∧
        z < |data.getD i 0 - npMean data| / npStd data) := by
  have hpos : 0 < npStd data :=
    lt_of_le_of_ne (Real.sqrt_nonneg _) (Ne.symm hstd)
  have habs : ∀ y : ℝ, |(y - npMean data) / npStd data|
      = |y - npMean data| / npStd data := by
    intro y
    rw [abs_div, abs_of_pos hpos]
  unfold AnomalyDet.detect_anomalies
  rw [if_neg (by omega), if_neg hstd]
  simp only [List.mem_filter, List.mem_enum_iff_getElem?, decide_eq_true_eq]
  constructor
  · rintro ⟨hmem, hpred⟩
    obtain ⟨hlt, hx⟩ := List.getElem?_eq_some_iff.1 hmem
    refine ⟨hlt, ?_, ?_⟩
    · simp [List.getD_eq_getElem?_getD, List.getElem?_eq_getElem hlt, hx]
    · have := hpred
      rw [habs] at this
      simpa [List.getD_eq_getElem?_getD, List.getElem?_eq_getElem hlt, hx] using this
  · rintro ⟨hlt, hx, hcond⟩
    have hget : data.getD i 0 = data[i] := by
      simp [List.getD_eq_getElem?_getD, List.getElem?_eq_getElem hlt]
    refine ⟨?_, ?_⟩
    · rw [List.getElem?_eq_getElem hlt, hx, hget]
    · rw [habs, hx, hget]
      rw [hget] at hcond
      exact hcond

/-- Claim C3: the global z-score detector `detect_anomalies` returns no
anomaly when the series has fewer than 2 points or zero population standard
deviation (for every threshold), and otherwise flags exactly the indices
whose absolute deviation from the population mean, divided by the population
standard deviation, exceeds the threshold. -/
theorem C3_detect_anomalies_spec (data : List ℝ) (z : ℝ) :
    (data.length < 2 → AnomalyDet.detect_anomalies data z = []) ∧
    (npStd data = 0 → AnomalyDet.detect_anomalies data z = []) ∧
    (2 ≤ data.length → npStd data ≠ 0 →
      ∀ i x, ((i, x) ∈ AnomalyDet.detect_anomalies data z) ↔
        (i < data.length ∧ x = data.getD i 0 ∧
          z < |data.getD i 0 - npMean data| / npStd data)) := by
  refine ⟨?_, ?_, ?_⟩
  · intro h
    unfold AnomalyDet.detect_anomalies
    rw [if_pos h]
  · intro h
    unfold AnomalyDet.detect_anomalies
    by_cases h2 : data.length < 2
    · rw [if_pos h2]
    · rw [if_neg h2, if_pos h]
  · intro h2 hstd i x
    exact mem_detect_anomalies h2 hstd i x

/-- Witness for C3: the short series `[5]`, the constant series `[3, 3]`
(zero variance: `std = 0`), and the series `[0, 1]` (mean `1/2`,
`std = 1/2 ≠ 0`), all at the default threshold 2.0. -/
theorem C3_detect_anomalies_spec_witness :
    AnomalyDet.detect_anomalies [5] 2.0 = [] ∧
    AnomalyDet.detect_anomalies [3, 3] 2.0 = [] ∧
    (((1 : Nat), (1 : ℝ)) ∈ AnomalyDet.detect_anomalies [0, 1] 2.0 ↔
      (1 < ([0, 1] : List ℝ).length ∧ (1 : ℝ) = ([0, 1] : List ℝ).getD 1 0 ∧
        (2.0 : ℝ) < |([0, 1] : List ℝ).getD 1 0 - npMean [0, 1]| / npStd [0, 1])) := by
  have hmean : npMean ([0, 1] : List ℝ) = 1 / 2 := by
    norm_num [npMean]
  have hstd : npStd ([0, 1] : List ℝ) = 1 / 2 := by
    rw [npStd, hmean]
    norm_num
    rw [show (4 : ℝ) = 2 ^ 2 by norm_num, Real.sqrt_sq (by norm_num : (0 : ℝ) ≤ 2)]
    norm_num
  refine ⟨(C3_detect_anomalies_spec [5] 2.0).1 (by norm_num),
    (C3_detect_anomalies_spec [3, 3] 2.0).2.1 ?_,
    (C3_detect_anomalies_spec [0, 1] 2.0).2.2 (by norm_num)
      (by rw [hstd]; norm_num) 1 1⟩
  have hmean3 : npMean ([3, 3] : List ℝ) = 3 := by
    norm_num [npMean]
  rw [npStd, hmean3]
  norm_num

/-- Membership characterization of the local moving-window detector: a pair
is emitted exactly for the indices at or beyond the window size whose
trailing window `data[i - window_size : i]` has nonzero standard deviation
and whose value deviates from the window mean by more than
`threshold * std`. -/
theorem mem_detect_anomalies_moving_average (data : List ℝ) (w : Nat) (t : ℝ)
    (i : Nat) (x : ℝ) :
    ((i, x) ∈ Detection.detect_anomalies_moving_average data w t) ↔
      (w ≤ i ∧ i < data.length ∧
        npStd ((data.drop (i - w)).take w) ≠ 0 ∧
        t * npStd ((data.drop (i - w)).take w)
          < |data.getD i 0 - npMean ((data.drop (i - w)).take w)| ∧
        x = data.getD i 0) := by
  unfold Detection.detect_anomalies_moving_average
  by_cases hlen : data.length < w
  · rw [if_pos hlen]
    simp only [List.not_mem_nil, false_iff]
    rintro ⟨h1, h2, -⟩
    omega
  · rw [if_neg hlen]
    rw [List.mem_filterMap]
    constructor
    · rintro ⟨j, hj, hfj⟩
      rw [List.mem_range'] at hj
      obtain ⟨k, hk, rfl⟩ := hj
      by_cases hs : npStd ((data.drop (w + 1 * k - w)).take w) = 0
      · rw [if_pos hs] at hfj
        exact absurd hfj (by simp)
      · rw [if_neg hs] at hfj
        by_cases hc : t * npStd ((data.drop (w + 1 * k - w)).take w)
            < |data.getD (w + 1 * k) 0 - npMean ((data.drop (w + 1 * k - w)).take w)|
        · rw [if_pos hc] at hfj
          obtain ⟨rfl, rfl⟩ : w + 1 * k = i ∧ data.getD (w + 1 * k) 0 = x := by
            simpa [Prod.ext_iff] using hfj
          exact ⟨by omega, by omega, hs, hc, rfl⟩
        · rw [if_neg hc] at hfj
          exact absurd hfj (by simp)
    · rintro ⟨hwi, hilen, hs, hc, rfl⟩
      refine ⟨i, ?_, ?_⟩
      · rw [List.mem_range']
        exact ⟨i - w, by omega, by omega⟩
      · rw [if_neg hs, if_pos hc]

/-- Claim C4: the local moving-window detector considers exactly the indices
`i ≥ window_size`, uses the trailing window of the `window_size` values
preceding `i` (excluding `i` itself), flags `i` exactly when
`|value − mean| > threshold * std` with nonzero window standard deviation
(zero-variance windows are skipped without error), and consequently never
flags an index below `window_size`. -/
theorem C4_moving_average_membership (data : List ℝ) (w : Nat) (t : ℝ) :
    (∀ p ∈ Detection.detect_anomalies_moving_average data w t, w ≤ p.1) ∧
    (∀ i x, ((i, x) ∈ Detection.detect_anomalies_moving_average data w t) ↔
      (w ≤ i ∧ i < data.length ∧
        npStd ((data.drop (i - w)).take w) ≠ 0 ∧
        t * npStd ((data.drop (i - w)).take w)
          < |data.getD i 0 - npMean ((data.drop (i - w)).take w)| ∧
        x = data.getD i 0)) := by
  refine ⟨?_, fun i x => mem_detect_anomalies_moving_average data w t i x⟩
  rintro ⟨i, x⟩ hp
  exact ((mem_detect_anomalies_moving_average data w t i x).1 hp).1

/-- Witness for C4: on `[0, 1, 0, 1, 0, 10]` with the default window 5 and
threshold 2.0, index 5 (the value 10) is flagged: its trailing window
`[0, 1, 0, 1, 0]` has mean 2/5 and standard deviation `sqrt (6/25) ≠ 0`, and
`|10 − 2/5| > 2 * sqrt (6/25)`. -/
theorem C4_moving_average_membership_witness :
    ((5 : Nat), (10 : ℝ)) ∈ Detection.detect_anomalies_moving_average
      [0, 1, 0, 1, 0, 10] 5 2.0 := by
  have hwin : ((([0, 1, 0, 1, 0, 10] : List ℝ).drop (5 - 5)).take 5)
      = [0, 1, 0, 1, 0] := by
    norm_num
  have hmean : npMean ([0, 1, 0, 1, 0] : List ℝ) = 2 / 5 := by
    norm_num [npMean]
  have hstd : npStd ([0, 1, 0, 1, 0] : List ℝ) = Real.sqrt (6 / 25) := by
    rw [npStd, hmean]
    norm_num
  have hget : ([0, 1, 0, 1, 0, 10] : List ℝ).getD 5 0 = 10 := by
    norm_num
  refine ((C4_moving_average_membership [0, 1, 0, 1, 0, 10] 5 2.0).2 5 10).2 ?_
  refine ⟨le_refl 5, by norm_num, ?_, ?_, by rw [hget]⟩
  · rw [hwin, hstd]
    rw [Real.sqrt_ne_zero']
    norm_num
  · rw [hwin, hstd, hget, hmean]
    have h24 : Real.sqrt (6 / 25) < 24 / 5 := by
      rw [Real.sqrt_lt' (by norm_num : (0 : ℝ) < 24 / 5)]
      norm_num
    have habs : |(10 : ℝ) - 2 / 5| = 48 / 5 := by
      rw [abs_of_pos] <;> norm_num
    rw [habs]
    nlinarith [h24]

/-- Every index emitted by the global z-score detector is a valid index of
the input series. -/
theorem detect_anomalies_index_lt (data : List ℝ) (z : ℝ) :
    ∀ p ∈ AnomalyDet.detect_anomalies data z, p.1 < data.length := by
  intro p hp
  unfold AnomalyDet.detect_anomalies at hp
  by_cases h2 : data.length < 2
  · rw [if_pos h2] at hp
    simp at hp
  · rw [if_neg h2] at hp
    by_cases hs : npStd data = 0
    · rw [if_pos hs] at hp
      simp at hp
    · rw [if_neg hs] at hp
      exact List.fst_lt_of_mem_enum (List.mem_filter.1 hp).1

/-- Claim C5: for the per-user entropy analysis and the per-user anomaly
analysis, a missing user or a missing feature type is a hard error (the
exact raised errors of the code), while a present-but-empty feature stream
or entropy series is a success with an empty series/anomaly list and all
summary statistics zeroed. -/
theorem C5_missing_is_error_empty_is_zero {α : Type} [DecidableEq α]
    (uid ft : String)
    (all_features : List (String × List (String × Calculation.FeatureValues α)))
    (log_lookup : String → Option (List LogEntry))
    (all_results : List (String × List (String × EntropyResult))) :
    (dictGet uid all_features = none →
      Calculation.analyze_user_entropy uid ft all_features log_lookup
        = .error (.keyError ("User " ++ uid ++ " not found in features file"))) ∧
    (∀ ud, dictGet uid all_features = some ud → dictGet ft ud = none →
      Calculation.analyze_user_entropy uid ft all_features log_lookup
        = .error (.valueError ("Unsupported feature type: " ++ ft))) ∧
    (∀ ud fv, dictGet uid all_features = some ud → dictGet ft ud = some fv →
      Calculation.flatten_values fv = [] →
      Calculation.analyze_user_entropy uid ft all_features log_lookup
        = .ok ⟨uid, ft, [], 0, 0, 0, 0⟩) ∧
    (dictGet ft all_results = none →
      Detection.analyze_user_entropy_anomalies uid ft all_results
        = .error (.keyError ("Feature type " ++ ft ++ " not found in entropy results"))) ∧
    (∀ fr, dictGet ft all_results = some fr → dictGet uid fr = none →
      Detection.analyze_user_entropy_anomalies uid ft all_results
        = .error (.keyError
            ("User " ++ uid ++ " not found in entropy results for " ++ ft))) ∧
    (∀ fr ud, dictGet ft all_results = some fr → dictGet uid fr = some ud →
      ud.entropies = [] →
      Detection.analyze_user_entropy_anomalies uid ft all_results
        = .ok ⟨uid, ft, [], 0, 0⟩) := by
  refine ⟨?_, ?_, ?_, ?_, ?_, ?_⟩
  · intro h
    unfold Calculation.analyze_user_entropy
    rw [h]
  · intro ud h1 h2
    unfold Calculation.analyze_user_entropy
    simp only [h1, h2]
  · intro ud fv h1 h2 h3
    unfold Calculation.analyze_user_entropy
    simp only [h1, h2, h3, if_pos]
  · intro h
    unfold Detection.analyze_user_entropy_anomalies
    rw [h]
  · intro fr h1 h2
    unfold Detection.analyze_user_entropy_anomalies
    simp only [h1, h2]
  · intro fr ud h1 h2 h3
    unfold Detection.analyze_user_entropy_anomalies
    simp only [h1, h2, h3, if_pos]

/-- Witness for C5: each of the six cases at a concrete input (empty maps,
a user without the feature type, an empty flat feature stream, and an
entropy-results map holding an empty entropy series). -/
theorem C5_missing_is_error_empty_is_zero_witness :
    (Calculation.analyze_user_entropy "u" "time_of_day"
        ([] : List (String × List (String × Calculation.FeatureValues ℕ)))
        (fun _ => none)
      = .error (.keyError "User u not found in features file")) ∧
    (Calculation.analyze_user_entropy "u" "time_of_day"
        ([("u", [])] : List (String × List (String × Calculation.FeatureValues ℕ)))
        (fun _ => none)
      = .error (.valueError "Unsupported feature type: time_of_day")) ∧
    (Calculation.analyze_user_entropy "u" "time_of_day"
        ([("u", [("time_of_day", Calculation.FeatureValues.flat ([] : List ℕ))])])
        (fun _ => none)
      = .ok ⟨"u", "time_of_day", [], 0, 0, 0, 0⟩) ∧
    (Detection.analyze_user_entropy_anomalies "u" "time_of_day" []
      = .error (.keyError "Feature type time_of_day not found in entropy results")) ∧
    (Detection.analyze_user_entropy_anomalies "u" "time_of_day" [("time_of_day", [])]
      = .error (.keyError "User u not found in entropy results for time_of_day")) ∧
    (Detection.analyze_user_entropy_anomalies "u" "time_of_day"
        [("time_of_day", [("u", ⟨"u", "time_of_day", [], 0, 0, 0, 0⟩)])]
      = .ok ⟨"u", "time_of_day", [], 0, 0⟩) := by
  refine ⟨?_, ?_, ?_, ?_, ?_, ?_⟩
  · exact (C5_missing_is_error_empty_is_zero "u" "time_of_day" [] (fun _ => none) []).1 rfl
  · exact (C5_missing_is_error_empty_is_zero "u" "time_of_day"
      [("u", [])] (fun _ => none) []).2.1 [] (by simp [dictGet]) rfl
  · exact (C5_missing_is_error_empty_is_zero "u" "time_of_day"
      [("u", [("time_of_day", Calculation.FeatureValues.flat ([] : List ℕ))])]
      (fun _ => none) []).2.2.1
      [("time_of_day", Calculation.FeatureValues.flat ([] : List ℕ))]
      (Calculation.FeatureValues.flat ([] : List ℕ))
      (by simp [dictGet]) (by simp [dictGet]) rfl
  · exact (C5_missing_is_error_empty_is_zero "u" "time_of_day"
      ([] : List (String × List (String × Calculation.FeatureValues ℕ)))
      (fun _ => none) []).2.2.2.1 rfl
  · exact (C5_missing_is_error_empty_is_zero "u" "time_of_day"
      ([] : List (String × List (String × Calculation.FeatureValues ℕ)))
      (fun _ => none) [("time_of_day", [])]).2.2.2.2.1 [] (by simp [dictGet]) rfl
  · exact (C5_missing_is_error_empty_is_zero "u" "time_of_day"
      ([] : List (String × List (String × Calculation.FeatureValues ℕ)))
      (fun _ => none)
      [("time_of_day", [("u", ⟨"u", "time_of_day", [], 0, 0, 0, 0⟩)])]).2.2.2.2.2
      [("u", ⟨"u", "time_of_day", [], 0, 0, 0, 0⟩)]
      ⟨"u", "time_of_day", [], 0, 0, 0, 0⟩
      (by simp [dictGet]) (by simp [dictGet]) rfl

/-- Claim C6: any successfully produced anomaly report (from either
analyzer) has `total_points` equal to the entropy-series length,
`anomaly_count` equal to the number of reported pairs, and only valid
series indices among its anomalies. -/
theorem C6_anomaly_report_invariants (uid ft : String)
    (all_results : List (String × List (String × EntropyResult)))
    (fr : List (String × EntropyResult)) (ud : EntropyResult)
    (hf : dictGet ft all_results = some fr) (hu : dictGet uid fr = some ud) :
    (∀ r, Detection.analyze_user_entropy_anomalies uid ft all_results = .ok r →
      r.total_points = ud.entropies.length ∧
      r.anomaly_count = r.anomalies.length ∧
      ∀ p ∈ r.anomalies, p.1 < ud.entropies.length) ∧
    (∀ r, AnomalyDet.analyze_user_entropy_anomalies uid ft all_results = .ok r →
      r.total_points = ud.entropies.length ∧
      r.anomaly_count = r.anomalies.length ∧
      ∀ p ∈ r.anomalies, p.1 < ud.entropies.length) := by
  constructor
  · intro r hr
    unfold Detection.analyze_user_entropy_anomalies at hr
    simp only [hf, hu] at hr
    by_cases he : ud.entropies = []
    · rw [if_pos he] at hr
      cases hr
      refine ⟨by simp [he], rfl, by simp⟩
    · rw [if_neg he] at hr
      cases hr
      refine ⟨rfl, rfl, ?_⟩
      intro p hp
      exact ((mem_detect_anomalies_moving_average ud.entropies 5 2.0 p.1 p.2).1
        (by simpa using hp)).2.1
  · intro r hr
    unfold AnomalyDet.analyze_user_entropy_anomalies at hr
    simp only [hf, hu] at hr
    by_cases he : ud.entropies = []
    · rw [if_pos he] at hr
      cases hr
      refine ⟨by simp [he], rfl, by simp⟩
    · rw [if_neg he] at hr
      cases hr
      refine ⟨rfl, rfl, ?_⟩
      intro p hp
      exact detect_anomalies_index_lt ud.entropies 2.0 p (by simpa using hp)

/-- Witness for C6: the entropy-results map holding the 3-point series
`[0, 0, 0]` for user `u`; both analyzers succeed with 3 total points and no
anomalies, and the invariants hold. -/
theorem C6_anomaly_report_invariants_witness :
    ((⟨"u", "time_of_day", [], 3, 0⟩ : AnomalyReport).total_points
        = ([0, 0, 0] : List ℝ).length ∧
      (⟨"u", "time_of_day", [], 3, 0⟩ : AnomalyReport).anomaly_count
        = (⟨"u", "time_of_day", ([] : List (Nat × ℝ)), 3, 0⟩ : AnomalyReport).anomalies.length ∧
      ∀ p ∈ (⟨"u", "time_of_day", ([] : List (Nat × ℝ)), 3, 0⟩ : AnomalyReport).anomalies,
        p.1 < ([0, 0, 0] : List ℝ).length) ∧
    ((⟨"u", "time_of_day", [], 3, 0⟩ : AnomalyReport).total_points
        = ([0, 0, 0] : List ℝ).length ∧
      (⟨"u", "time_of_day", [], 3, 0⟩ : AnomalyReport).anomaly_count
        = (⟨"u", "time_of_day", ([] : List (Nat × ℝ)), 3, 0⟩ : AnomalyReport).anomalies.length ∧
      ∀ p ∈ (⟨"u", "time_of_day", ([] : List (Nat × ℝ)), 3, 0⟩ : AnomalyReport).anomalies,
        p.1 < ([0, 0, 0] : List ℝ).length) := by
  have h := C6_anomaly_report_invariants "u" "time_of_day"
    [("time_of_day", [("u", ⟨"u", "time_of_day", [0, 0, 0], 3, 0, 0, 0⟩)])]
    [("u", ⟨"u", "time_of_day", [0, 0, 0], 3, 0, 0, 0⟩)]
    ⟨"u", "time_of_day", [0, 0, 0], 3, 0, 0, 0⟩
    (by simp [dictGet]) (by simp [dictGet])
  have hdet : Detection.analyze_user_entropy_anomalies "u" "time_of_day"
      [("time_of_day", [("u", ⟨"u", "time_of_day", [0, 0, 0], 3, 0, 0, 0⟩)])]
      = .ok ⟨"u", "time_of_day", [], 3, 0⟩ := by
    unfold Detection.analyze_user_entropy_anomalies
    simp only [dictGet, if_pos]
    rw [if_neg (by simp)]
    unfold Detection.detect_anomalies_moving_average
    norm_num
  have had : AnomalyDet.analyze_user_entropy_anomalies "u" "time_of_day"
      [("time_of_day", [("u", ⟨"u", "time_of_day", [0, 0, 0], 3, 0, 0, 0⟩)])]
      = .ok ⟨"u", "time_of_day", [], 3, 0⟩ := by
    unfold AnomalyDet.analyze_user_entropy_anomalies
    simp only [dictGet, if_pos]
    rw [if_neg (by simp)]
    unfold AnomalyDet.detect_anomalies
    have hstd : npStd ([0, 0, 0] : List ℝ) = 0 := by
      rw [npStd]
      norm_num [npMean]
    rw [if_neg (by norm_num), if_pos hstd]
    rfl
  exact ⟨h.1 _ hdet, h.2 _ had⟩

/-- Claim C7: for fewer than 2 logs, both pairwise streams are empty; for
`N ≥ 2` logs, `calculate_text_similarity` and `calculate_response_latency`
each produce exactly `N - 1` values (one per consecutive pair), whatever the
TF-IDF vectorizer does. -/
theorem C7_pairwise_stream_lengths {M : Type} (fit_transform : List String → Option M)
    (cos : M → Nat → Nat → ℝ) (logs : List LogEntry) :
    (logs.length < 2 →
      Helpers.calculate_text_similarity fit_transform cos logs = [] ∧
      Helpers.calculate_response_latency logs = []) ∧
    (2 ≤ logs.length →
      (Helpers.calculate_text_similarity fit_transform cos logs).length
        = logs.length - 1 ∧
      (Helpers.calculate_response_latency logs).length = logs.length - 1) := by
  constructor
  · intro h
    constructor
    · unfold Helpers.calculate_text_similarity
      rw [if_pos h]
    · unfold Helpers.calculate_response_latency
      rw [if_pos h]
  · intro h
    constructor
    · unfold Helpers.calculate_text_similarity
      rw [if_neg (by omega)]
      cases hfit : fit_transform (logs.map (fun log => log.message)) <;>
        simp [hfit]
    · unfold Helpers.calculate_response_latency
      rw [if_neg (by omega)]
      simp

/-- Witness for C7 at a 0-log and a 2-log input (with a vectorizer that
always fails and a trivial cosine kernel). -/
theorem C7_pairwise_stream_lengths_witness :
    (Helpers.calculate_text_similarity (M := Unit) (fun _ => none) (fun _ _ _ => 0) [] = [] ∧
      Helpers.calculate_response_latency [] = []) ∧
    ((Helpers.calculate_text_similarity (M := Unit) (fun _ => none) (fun _ _ _ => 0)
        [⟨⟨0, 0⟩, "glucose", "a"⟩, ⟨⟨0, 300⟩, "diet", "b"⟩]).length = 1 ∧
      (Helpers.calculate_response_latency
        [⟨⟨0, 0⟩, "glucose", "a"⟩, ⟨⟨0, 300⟩, "diet", "b"⟩]).length = 1) :=
  ⟨(C7_pairwise_stream_lengths (M := Unit) (fun _ => none) (fun _ _ _ => 0) []).1
      (by norm_num),
    (C7_pairwise_stream_lengths (M := Unit) (fun _ => none) (fun _ _ _ => 0)
      [⟨⟨0, 0⟩, "glucose", "a"⟩, ⟨⟨0, 300⟩, "diet", "b"⟩]).2 (by norm_num)⟩

/-- Claim C8: when the TF-IDF vectorization of the messages fails,
`calculate_text_similarity` does not raise and instead returns the value 0.0
for each of the `N - 1` consecutive pairs. -/
theorem C8_text_similarity_fallback {M : Type} (fit_transform : List String → Option M)
    (cos : M → Nat → Nat → ℝ) (logs : List LogEntry) (h2 : 2 ≤ logs.length)
    (hfail : fit_transform (logs.map (fun log => log.message)) = none) :
    Helpers.calculate_text_similarity fit_transform cos logs
      = List.replicate (logs.length - 1) 0 := by
  unfold Helpers.calculate_text_similarity
  rw [if_neg (by omega)]
  simp only [hfail]
  simp

/-- Witness for C8: two logs and an always-failing vectorizer yield the
one-element stream `[0]`. -/
theorem C8_text_similarity_fallback_witness :
    2 ≤ ([⟨⟨0, 0⟩, "glucose", "a"⟩, ⟨⟨0, 300⟩, "diet", "b"⟩] : List LogEntry).length ∧
    Helpers.calculate_text_similarity (M := Unit) (fun _ => none) (fun _ _ _ => 0)
      [⟨⟨0, 0⟩, "glucose", "a"⟩, ⟨⟨0, 300⟩, "diet", "b"⟩]
      = List.replicate 1 0 :=
  ⟨by norm_num,
    C8_text_similarity_fallback (M := Unit) (fun _ => none) (fun _ _ _ => 0)
      [⟨⟨0, 0⟩, "glucose", "a"⟩, ⟨⟨0, 300⟩, "diet", "b"⟩] (by norm_num) rfl⟩

theorem zip_take_min {α β : Type} (l1 : List α) (l2 : List β) :
    l1.zip l2
      = (l1.take (min l1.length l2.length)).zip (l2.take (min l1.length l2.length)) := by
  induction l1 generalizing l2 with
  | nil => simp
  | cons a t ih =>
    cases l2 with
    | nil => simp
    | cons b s =>
      simpa [Nat.succ_min_succ] using congrArg (List.cons (a, b)) (ih s)

/-- Claim C10: the windowed entropy computation pairs feature values with
timestamps positionally (`zip`), so it depends only on the first
`min (len values) (len timestamps)` elements of either list; surplus
elements of the longer list are silently dropped. -/
theorem C10_window_entropy_zip_truncation {α : Type} [DecidableEq α] (data : List α)
    (ts : List Timestamp) (w : Nat) :
    Calculation.calculate_window_entropy data ts w
      = Calculation.calculate_window_entropy
          (data.take (min data.length ts.length))
          (ts.take (min data.length ts.length)) w := by
  by_cases hd : data = []
  · subst hd
    simp [Calculation.calculate_window_entropy]
  · by_cases ht : ts = []
    · subst ht
      unfold Calculation.calculate_window_entropy
      rw [if_neg hd, if_pos (by simp)]
      simp [Calculation.group_data_by_day, Calculation.sorted_dates]
    · have h1 := List.length_pos.2 hd
      have h2 := List.length_pos.2 ht
      have htake : data.take (min data.length ts.length) ≠ [] := by
        have hlen : (data.take (min data.length ts.length)).length
            = min data.length ts.length := by
          rw [List.length_take]
          omega
        intro hcon
        rw [hcon] at hlen
        simp at hlen
        omega
      unfold Calculation.calculate_window_entropy
      rw [if_neg hd, if_neg htake]
      simp only [Calculation.group_data_by_day]
      rw [← zip_take_min data ts]

/-- Claim C9 as stated is false: the entropy stage is not a function of the
persisted extracted-features content alone.  With identical features (ten
distinct values for user `u`), changing only the raw log files (ten distinct
log dates versus ten logs on one date) changes the result: the first run
yields one window entropy (total_days 1), the second yields none. -/
theorem C9_counterexample :
    Calculation.analyze_user_entropy "u" "time_of_day"
        [("u", [("time_of_day", Calculation.FeatureValues.flat
          ([0, 1, 2, 3, 4, 5, 6, 7, 8, 9] : List ℕ))])]
        (fun _ => some [⟨⟨0, 0⟩, "g", "m"⟩, ⟨⟨1, 0⟩, "g", "m"⟩, ⟨⟨2, 0⟩, "g", "m"⟩,
          ⟨⟨3, 0⟩, "g", "m"⟩, ⟨⟨4, 0⟩, "g", "m"⟩, ⟨⟨5, 0⟩, "g", "m"⟩,
          ⟨⟨6, 0⟩, "g", "m"⟩, ⟨⟨7, 0⟩, "g", "m"⟩, ⟨⟨8, 0⟩, "g", "m"⟩,
          ⟨⟨9, 0⟩, "g", "m"⟩])
      ≠ Calculation.analyze_user_entropy "u" "time_of_day"
        [("u", [("time_of_day", Calculation.FeatureValues.flat
          ([0, 1, 2, 3, 4, 5, 6, 7, 8, 9] : List ℕ))])]
        (fun _ => some [⟨⟨0, 0⟩, "g", "m"⟩, ⟨⟨0, 0⟩, "g", "m"⟩, ⟨⟨0, 0⟩, "g", "m"⟩,
          ⟨⟨0, 0⟩, "g", "m"⟩, ⟨⟨0, 0⟩, "g", "m"⟩, ⟨⟨0, 0⟩, "g", "m"⟩,
          ⟨⟨0, 0⟩, "g", "m"⟩, ⟨⟨0, 0⟩, "g", "m"⟩, ⟨⟨0, 0⟩, "g", "m"⟩,
          ⟨⟨0, 0⟩, "g", "m"⟩]) := by
  intro heq
  have hcong := congrArg (fun x : Except PipelineError EntropyResult =>
    match x with | .ok r => r.total_days | .error _ => 99) heq
  have hv1 : (match Calculation.analyze_user_entropy "u" "time_of_day"
      [("u", [("time_of_day", Calculation.FeatureValues.flat
        ([0, 1, 2, 3, 4, 5, 6, 7, 8, 9] : List ℕ))])]
      (fun _ => some [⟨⟨0, 0⟩, "g", "m"⟩, ⟨⟨1, 0⟩, "g", "m"⟩, ⟨⟨2, 0⟩, "g", "m"⟩,
        ⟨⟨3, 0⟩, "g", "m"⟩, ⟨⟨4, 0⟩, "g", "m"⟩, ⟨⟨5, 0⟩, "g", "m"⟩,
        ⟨⟨6, 0⟩, "g", "m"⟩, ⟨⟨7, 0⟩, "g", "m"⟩, ⟨⟨8, 0⟩, "g", "m"⟩,
        ⟨⟨9, 0⟩, "g", "m"⟩]) with
      | .ok r => r.total_days | .error _ => 99) = 1 := by
    unfold Calculation.analyze_user_entropy
    norm_num [dictGet, Calculation.flatten_values]
    rw [length_calculate_window_entropy]
    decide
  have hv2 : (match Calculation.analyze_user_entropy "u" "time_of_day"
      [("u", [("time_of_day", Calculation.FeatureValues.flat
        ([0, 1, 2, 3, 4, 5, 6, 7, 8, 9] : List ℕ))])]
      (fun _ => some [⟨⟨0, 0⟩, "g", "m"⟩, ⟨⟨0, 0⟩, "g", "m"⟩, ⟨⟨0, 0⟩, "g", "m"⟩,
        ⟨⟨0, 0⟩, "g", "m"⟩, ⟨⟨0, 0⟩, "g", "m"⟩, ⟨⟨0, 0⟩, "g", "m"⟩,
        ⟨⟨0, 0⟩, "g", "m"⟩, ⟨⟨0, 0⟩, "g", "m"⟩, ⟨⟨0, 0⟩, "g", "m"⟩,
        ⟨⟨0, 0⟩, "g", "m"⟩]) with
      | .ok r => r.total_days | .error _ => 99) = 0 := by
    unfold Calculation.analyze_user_entropy
    norm_num [dictGet, Calculation.flatten_values]
    rw [length_calculate_window_entropy]
    decide
  exact absurd (hv1.symm.trans (hcong.trans hv2)) (by decide)

/-- Claim C9 (amended): the entropy stage is a deterministic function of the
extracted-features content together with the requested user's raw log file
(whose timestamps drive the day grouping) — not of the features artifact
alone.  Runs agreeing on the features content and on that user's log file
produce identical entropy series and summary statistics, whatever any other
state (other users' logs, other files) looks like. -/
theorem C9_entropy_stage_determinism {α : Type} [DecidableEq α]
    (uid ft : String)
    (all_features : List (String × List (String × Calculation.FeatureValues α)))
    (L1 L2 : String → Option (List LogEntry)) (h : L1 uid = L2 uid) :
    Calculation.analyze_user_entropy uid ft all_features L1
      = Calculation.analyze_user_entropy uid ft all_features L2 := by
  unfold Calculation.analyze_user_entropy
  rw [h]

/-- Witness for the amended C9: two log lookups that agree on user `u` but
differ elsewhere give identical analysis results for `u`. -/
theorem C9_entropy_stage_determinism_witness :
    ((fun _ : String => some ([] : List LogEntry)) "u"
      = (fun s : String => if s = "u" then some ([] : List LogEntry) else none) "u") ∧
    Calculation.analyze_user_entropy "u" "time_of_day"
        [("u", [("time_of_day", Calculation.FeatureValues.flat
          ([0, 1] : List ℕ))])]
        (fun _ => some ([] : List LogEntry))
      = Calculation.analyze_user_entropy "u" "time_of_day"
        [("u", [("time_of_day", Calculation.FeatureValues.flat
          ([0, 1] : List ℕ))])]
        (fun s => if s = "u" then some ([] : List LogEntry) else none) :=
  ⟨by simp, C9_entropy_stage_determinism "u" "time_of_day"
    [("u", [("time_of_day", Calculation.FeatureValues.flat ([0, 1] : List ℕ))])]
    (fun _ => some ([] : List LogEntry))
    (fun s => if s = "u" then some ([] : List LogEntry) else none) (by simp)⟩

end DiabetesPipeline
